import Mathlib

set_option autoImplicit false

namespace EmudeckSync

/-- A path relative to a directory root, as a list of components. -/
abbrev EPath := List String

/-- File contents as a list of bytes. -/
abbrev FileContent := List Nat

/-- A directory tree flattened to an association list from relative
paths to file contents; the first binding for a path wins on lookup. -/
abbrev FileTree := List (EPath × FileContent)

/-- Look up the content stored at a path in a tree. -/
def lookupEntry : FileTree → EPath → Option FileContent
  | [], _ => none
  | e :: rest, p => if e.1 = p then some e.2 else lookupEntry rest p

/-- The fs_extra::dir::CopyOptions fields the program sets
(src/src/main.rs lines 68-72). -/
structure CopyOptions where
  overwrite : Bool
  skip_exist : Bool
  copy_inside : Bool
  content_only : Bool
deriving DecidableEq

/-- The options built in sync_emudeck_to_network_directories
(src/src/main.rs lines 68-72). -/
def syncCopyOptions : CopyOptions :=
  { overwrite := false, skip_exist := true, copy_inside := false, content_only := true }

/-- Modelled from the spec: the tree-level result of
fs_extra::dir::copy_with_progress (external crate, so its body is not
under src/) in the configuration the program uses (overwrite=false,
skip_exist=true, content_only=true). Spec sections 4.1.2 and 4.1.3:
every entry of the source tree is copied into the destination, and any
destination entry that already exists is skipped entirely, with no
overwrite and no merge. -/
def copyTreeSkipExisting (source dest : FileTree) : FileTree :=
  dest ++ source.filter (fun e => (lookupEntry dest e.1).isNone)

/-- Modelled from the spec: the same copy pass when single entries can
fail with an I/O error. Entries are processed in order; an existing
destination entry is skipped; an I/O failure while copying an entry
aborts the operation, since the progress callback answers
ContinueOrAbort (spec section 4.1.5: abort is possible only via a
lower-level I/O failure, and the result clause of section 4.1: failure
is logged and the function returns). Returns the destination tree as
the aborted or finished pass leaves it, and whether the pass
succeeded. -/
def copyTreeWithFailures (fails : EPath → Bool) : FileTree → FileTree → FileTree × Bool
  | [], dest => (dest, true)
  | e :: rest, dest =>
    if (lookupEntry dest e.1).isSome then copyTreeWithFailures fails rest dest
    else if fails e.1 then (dest, false)
    else copyTreeWithFailures fails rest (dest ++ [e])

/-- The fs_extra progress record: bytes copied so far and total bytes. -/
structure TransitProcess where
  copied_bytes : Nat
  total_bytes : Nat
deriving DecidableEq

/-- The answers a fs_extra progress callback can give. -/
inductive TransitProcessResult
  | Overwrite
  | OverwriteAll
  | Skip
  | SkipAll
  | Retry
  | Abort
  | ContinueOrAbort
deriving DecidableEq

/-- The notify event kinds (spec section 3, ChangeEvent). -/
inductive EventKind
  | create
  | modify
  | remove
  | other
deriving DecidableEq

/-- A notify::Event: a kind plus the affected paths. -/
structure Event where
  kind : EventKind
  paths : List EPath
deriving DecidableEq

/-- An error reported by the notify watch back-end. -/
structure NotifyError where
  code : Nat
deriving DecidableEq

/-- A file-system error (std::io or fs_extra). -/
inductive FsError
  | createFailed
  | copyFailed
  | permissionDenied
deriving DecidableEq

/-- One log line, identified by its call site in src/src/main.rs
together with the formatted payload. -/
inductive LogLine
  | startingUp
  | localDir (d : String)
  | networkDir (d : String)
  | syncStart
  | destCreating (d : String)
  | syncProgress (pct : ℚ)
  | syncDirError (e : FsError)
  | dirSyncError (e : FsError)
  | watcherStart
  | fsEvent (e : Event)
  | watchError (e : NotifyError)
  | topLevelError (e : NotifyError)
deriving DecidableEq

/-- Whether a log line is emitted at error level (with error!) rather
than info level. -/
def isErrorLog : LogLine → Bool
  | LogLine.syncDirError _ => true
  | LogLine.dirSyncError _ => true
  | LogLine.watchError _ => true
  | LogLine.topLevelError _ => true
  | _ => false

/-- The percentage the progress callback computes
(src/src/main.rs lines 137-138), with the f64 arithmetic modelled
exactly over the rationals. -/
def percentage (p : TransitProcess) : ℚ :=
  (p.copied_bytes : ℚ) / (p.total_bytes : ℚ) * 100

/-- The progress callback handle (src/src/main.rs lines 136-148): emit
a progress line exactly when the truncated integer percentage (the f64
value cast to u32) is a multiple of 10; the line carries the exact
percentage, which the code prints with two decimals. -/
def handle (p : TransitProcess) : Option LogLine :=
  if (⌊percentage p⌋).toNat % 10 = 0 then some (LogLine.syncProgress (percentage p))
  else none

/-- handle always answers ContinueOrAbort to fs_extra
(src/src/main.rs line 147). -/
def handleResult (_ : TransitProcess) : TransitProcessResult :=
  TransitProcessResult.ContinueOrAbort

/-- The progress lines produced by a copy pass that reports the given
sequence of progress samples through handle. -/
def progressLogs (samples : List TransitProcess) : List LogLine :=
  samples.filterMap handle

/-- The exact percentage values carried by the progress lines of one
pass. -/
def loggedPercentages (samples : List TransitProcess) : List ℚ :=
  (samples.filter (fun s => decide ((⌊percentage s⌋).toNat % 10 = 0))).map percentage

/-- The two file-system operations sync_directories can perform, in
order. createDestDirAll stands for std::fs::create_dir_all, which
creates the destination directory together with all missing ancestor
directories. -/
inductive SyncStep
  | createDestDirAll
  | copyWithProgress
deriving DecidableEq

deriving instance DecidableEq for Except

/-- The outcome of one sync_directories call: the file-system steps it
ran in order, the log lines it emitted, and its return value. -/
structure SyncRun where
  steps : List SyncStep
  logs : List LogLine
  result : Except FsError Unit
deriving DecidableEq

/-- The log produced when the copy traversal itself fails
(src/src/main.rs lines 151-154): the error is logged at error level
and swallowed. -/
def copyErrorLog : Except FsError Unit → List LogLine
  | Except.ok _ => []
  | Except.error e => [LogLine.syncDirError e]

/-- sync_directories (src/src/main.rs lines 126-157). The outcomes of
the external file-system operations are inputs: destExists is whether
the destination path exists, createResult is the outcome of
std::fs::create_dir_all, samples is the sequence of progress samples
the copy reports through handle, and copyResult is the outcome of
fs_extra::dir::copy_with_progress. A create_dir_all failure is
propagated with the question-mark operator; a copy failure is only
logged. -/
def sync_directories (destination : String) (destExists : Bool)
    (createResult : Except FsError Unit) (samples : List TransitProcess)
    (copyResult : Except FsError Unit) : SyncRun :=
  if destExists then
    { steps := [SyncStep.copyWithProgress]
      logs := progressLogs samples ++ copyErrorLog copyResult
      result := Except.ok () }
  else
    match createResult with
    | Except.error e =>
      { steps := [SyncStep.createDestDirAll]
        logs := [LogLine.destCreating destination]
        result := Except.error e }
    | Except.ok _ =>
      { steps := [SyncStep.createDestDirAll, SyncStep.copyWithProgress]
        logs := LogLine.destCreating destination ::
          (progressLogs samples ++ copyErrorLog copyResult)
        result := Except.ok () }

/-- The clap-derived CLI (src/src/main.rs lines 12-20): two required
positional arguments. -/
structure Cli where
  local_emulation_directory : String
  network_emulation_directory : String
deriving DecidableEq

/-- Positional-argument parsing as clap derives it for Cli: parsing
succeeds exactly on two positional arguments. -/
def cliParse : List String → Option Cli
  | [a, b] => some { local_emulation_directory := a, network_emulation_directory := b }
  | _ => none

/-- The log sync_emudeck_to_network_directories emits for the value
sync_directories returns (src/src/main.rs lines 76-83): an Err is
logged at error level, an Ok logs nothing. -/
def dirSyncErrorLog : Except FsError Unit → List LogLine
  | Except.ok _ => []
  | Except.error e => [LogLine.dirSyncError e]

/-- sync_emudeck_to_network_directories (src/src/main.rs lines 67-84):
build syncCopyOptions, log the sync banner, run sync_directories, and
log any propagated error while returning unit. -/
def sync_emudeck_to_network_directories (cli : Cli) (destExists : Bool)
    (createResult : Except FsError Unit) (samples : List TransitProcess)
    (copyResult : Except FsError Unit) : List LogLine :=
  let run := sync_directories cli.network_emulation_directory destExists createResult
    samples copyResult
  LogLine.syncStart :: run.logs ++ dirSyncErrorLog run.result

/-- handle_file_system_event (src/src/main.rs lines 122-124). -/
def handle_file_system_event (e : Event) : LogLine :=
  LogLine.fsEvent e

/-- The consumption loop of async_watch (src/src/main.rs lines
112-117): drain the channel until it closes. An Ok item is logged as
an event, an Err item is logged as a watch error, and in both cases
the loop continues. The input list is the full sequence of items the
producer sends before dropping its side of the channel. -/
def consumeLoop : List (Except NotifyError Event) → List LogLine
  | [] => []
  | Except.ok e :: rest => handle_file_system_event e :: consumeLoop rest
  | Except.error e :: rest => LogLine.watchError e :: consumeLoop rest

/-- async_watch (src/src/main.rs lines 103-120). watcherResult is the
outcome of async_watcher(), watchResult the outcome of subscribing the
path, and stream the items delivered through the channel before the
producer side drops. Either setup failure is propagated with the
question-mark operator; draining the whole stream ends with Ok(()). -/
def async_watch (watcherResult watchResult : Except NotifyError Unit)
    (stream : List (Except NotifyError Event)) :
    List LogLine × Except NotifyError Unit :=
  match watcherResult with
  | Except.error e => ([], Except.error e)
  | Except.ok _ =>
    match watchResult with
    | Except.error e => ([LogLine.watcherStart], Except.error e)
    | Except.ok _ => (LogLine.watcherStart :: consumeLoop stream, Except.ok ())

/-- main's handling of the value returned by block_on(async_watch ...)
(src/src/main.rs lines 34-38): an Err is logged at error level, an Ok
logs nothing. -/
def mainWatchResultLog : Except NotifyError Unit → List LogLine
  | Except.ok _ => []
  | Except.error e => [LogLine.topLevelError e]

/-- The full log trace of main (src/src/main.rs lines 22-39): the
banner lines, the sync pass, then the watch phase, with async_watch's
Err (if any) logged at top level. -/
def mainLogs (cli : Cli) (destExists : Bool) (createResult : Except FsError Unit)
    (samples : List TransitProcess) (copyResult : Except FsError Unit)
    (watcherResult watchResult : Except NotifyError Unit)
    (stream : List (Except NotifyError Event)) : List LogLine :=
  LogLine.startingUp ::
    LogLine.localDir cli.local_emulation_directory ::
    LogLine.networkDir cli.network_emulation_directory ::
    (sync_emudeck_to_network_directories cli destExists createResult samples copyResult ++
      ((async_watch watcherResult watchResult stream).1 ++
        mainWatchResultLog (async_watch watcherResult watchResult stream).2))

/-- Modelled from the spec: the state of the bounded
futures::channel::mpsc channel as the sending side observes it — the
bounded hand-off queue of spec sections 4.2 and 9 — either live with
some number of buffered items, or disconnected because the receiving
side was dropped. -/
inductive ChannelState
  | live (buffered : Nat)
  | disconnected
deriving DecidableEq

/-- The outcome of awaiting Sender::send on the channel: the send
resolves once capacity is available and fails exactly when the
receiver has disconnected. -/
inductive SendOutcome
  | sent
  | errDisconnected
deriving DecidableEq

/-- Modelled from the spec: awaiting a send on the bounded hand-off
queue blocks until capacity is free (so a live channel eventually
accepts) and errors exactly when the consuming side is gone. -/
def channelSend : ChannelState → SendOutcome
  | ChannelState.live _ => SendOutcome.sent
  | ChannelState.disconnected => SendOutcome.errDisconnected

/-- What one invocation of the callback can do: return normally or
panic. -/
inductive CallbackOutcome
  | returns
  | panics
deriving DecidableEq

/-- The event callback installed by async_watcher (src/src/main.rs
lines 92-96): block_on(tx.send(res)) followed by .unwrap(), which
panics exactly when the send resolved to an error. -/
def watcherCallback (st : ChannelState) : CallbackOutcome :=
  match channelSend st with
  | SendOutcome.sent => CallbackOutcome.returns
  | SendOutcome.errDisconnected => CallbackOutcome.panics

theorem lookupEntry_append_left (xs : FileTree) :
    ∀ (d : FileTree) (p : EPath) (c : FileContent),
      lookupEntry d p = some c → lookupEntry (d ++ xs) p = some c
  | [], p, c, h => by simp [lookupEntry] at h
  | e :: rest, p, c, h => by
    by_cases hp : e.1 = p
    · simp only [lookupEntry, hp, if_pos] at h
      simpa [lookupEntry, hp] using h
    · simp only [lookupEntry, hp, if_neg, not_false_iff] at h
      simpa [lookupEntry, hp] using lookupEntry_append_left xs rest p c h

theorem lookupEntry_append_none (xs : FileTree) :
    ∀ (d : FileTree) (p : EPath),
      lookupEntry d p = none → lookupEntry (d ++ xs) p = lookupEntry xs p
  | [], _, _ => by simp [lookupEntry]
  | e :: rest, p, h => by
    by_cases hp : e.1 = p
    · simp [lookupEntry, hp] at h
    · simp only [lookupEntry, hp, if_neg, not_false_iff] at h
      simpa [lookupEntry, hp] using lookupEntry_append_none xs rest p h

theorem lookupEntry_filter_of_key (P : EPath × FileContent → Bool) (p : EPath)
    (hP : ∀ c, P (p, c) = true) :
    ∀ l : FileTree, lookupEntry (l.filter P) p = lookupEntry l p
  | [] => by simp [lookupEntry]
  | e :: rest => by
    by_cases hp : e.1 = p
    · have he : P e = true := by
        have he2 : e = (p, e.2) := by
          cases e
          simp only at hp
          simp [hp]
        rw [he2]
        exact hP e.2
      simp [List.filter, he, lookupEntry, hp]
    · cases hPe : P e with
      | true =>
        simp [List.filter, hPe, lookupEntry, hp, lookupEntry_filter_of_key P p hP rest]
      | false =>
        simp [List.filter, hPe, lookupEntry, hp, lookupEntry_filter_of_key P p hP rest]

theorem lookupEntry_isSome_of_mem :
    ∀ {l : FileTree} {e : EPath × FileContent}, e ∈ l → (lookupEntry l e.1).isSome = true
  | [], _, h => by simp at h
  | f :: rest, e, h => by
    rcases List.mem_cons.mp h with h1 | h2
    · simp [lookupEntry, h1]
    · by_cases hp : f.1 = e.1
      · simp [lookupEntry, hp]
      · simpa [lookupEntry, hp] using lookupEntry_isSome_of_mem h2

theorem copyTreeSkipExisting_lookup_isSome {source dest : FileTree} {p : EPath}
    (h : (lookupEntry source p).isSome = true) :
    (lookupEntry (copyTreeSkipExisting source dest) p).isSome = true := by
  unfold copyTreeSkipExisting
  cases hd : lookupEntry dest p with
  | some c => simp [lookupEntry_append_left _ dest p c hd]
  | none =>
    rw [lookupEntry_append_none _ dest p hd]
    rw [lookupEntry_filter_of_key _ p (fun c => by simp [hd]) source]
    exact h

/-- C1: the sync pass is invoked with overwrite=false and
skip_exist=true, and under the resulting skip-existing copy semantics
every destination entry that exists before the pass keeps
byte-for-byte identical content after the pass. -/
theorem C1_preexisting_entries_unchanged (source dest : FileTree) (p : EPath)
    (c : FileContent) (h : lookupEntry dest p = some c) :
    syncCopyOptions.overwrite = false ∧ syncCopyOptions.skip_exist = true ∧
    lookupEntry (copyTreeSkipExisting source dest) p = some c :=
  ⟨rfl, rfl, lookupEntry_append_left _ dest p c h⟩

/-- Witness for C1 at a concrete input: a pre-existing destination file
keeps its content even though the source carries different bytes at
the same path. -/
theorem C1_witness :
    lookupEntry
      (copyTreeSkipExisting [(["saves", "b.sav"], [6, 6]), (["roms", "a.bin"], [9])]
        [(["saves", "b.sav"], [5, 5])])
      ["saves", "b.sav"] = some [5, 5] :=
  (C1_preexisting_entries_unchanged
    [(["saves", "b.sav"], [6, 6]), (["roms", "a.bin"], [9])]
    [(["saves", "b.sav"], [5, 5])]
    ["saves", "b.sav"] [5, 5] (by decide)).2.2

/-- C7: the sync pass is idempotent: running the skip-existing copy a
second time with the same source and destination changes nothing,
because every source entry already exists at the destination after the
first run. -/
theorem C7_sync_idempotent (source dest : FileTree) :
    copyTreeSkipExisting source (copyTreeSkipExisting source dest) =
      copyTreeSkipExisting source dest := by
  have hnil : source.filter
      (fun e => (lookupEntry (copyTreeSkipExisting source dest) e.1).isNone) = [] := by
    rw [List.filter_eq_nil_iff]
    intro e he
    have h1 : (lookupEntry source e.1).isSome = true := lookupEntry_isSome_of_mem he
    have h2 : (lookupEntry (copyTreeSkipExisting source dest) e.1).isSome = true :=
      copyTreeSkipExisting_lookup_isSome h1
    rcases Option.isSome_iff_exists.mp h2 with ⟨c, hc⟩
    simp [hc]
  conv_lhs => rw [copyTreeSkipExisting]
  rw [hnil, List.append_nil]

/-- Witness for C7 at a concrete source and destination. -/
theorem C7_witness :
    copyTreeSkipExisting [(["a"], [1])]
        (copyTreeSkipExisting [(["a"], [1])] [(["b"], [2])]) =
      copyTreeSkipExisting [(["a"], [1])] [(["b"], [2])] :=
  C7_sync_idempotent [(["a"], [1])] [(["b"], [2])]

/-- C3 (evaluation at the failing input): with the receiver side of
the event channel already dropped, the watcher callback's
tx.send(res).await.unwrap() panics instead of surfacing a recoverable
result; while the receiver is alive the callback returns normally. -/
theorem C3_callback_panics_on_disconnected_receiver :
    watcherCallback ChannelState.disconnected = CallbackOutcome.panics ∧
    watcherCallback (ChannelState.live 0) = CallbackOutcome.returns :=
  ⟨rfl, rfl⟩

/-- C4 is false as stated: when the producer side drops immediately
(the stream of delivered items is empty), the consumption loop exits
and async_watch returns Ok(()), and the full program run logs no
error-level line at all — the channel closure is not logged as an
error. -/
theorem C4_counterexample :
    async_watch (Except.ok ()) (Except.ok ()) [] =
      ([LogLine.watcherStart], Except.ok ()) ∧
    (mainLogs { local_emulation_directory := "l", network_emulation_directory := "n" }
        true (Except.ok ()) [] (Except.ok ()) (Except.ok ()) (Except.ok ())
        []).filter isErrorLog = [] :=
  ⟨rfl, rfl⟩

/-- C4 (amended): when the producer side of the watch event channel
drops, the consumption loop exits after draining the stream and
async_watch returns Ok(()); the closure itself is not logged as an
error — the caller logs an error only for an Err return of
async_watch, which setup failures produce and channel closure does
not. -/
theorem C4_closure_exits_quietly (stream : List (Except NotifyError Event)) :
    async_watch (Except.ok ()) (Except.ok ()) stream =
      (LogLine.watcherStart :: consumeLoop stream, Except.ok ()) ∧
    mainWatchResultLog (Except.ok ()) = [] ∧
    (∀ e : NotifyError,
      mainWatchResultLog (Except.error e) = [LogLine.topLevelError e]) :=
  ⟨rfl, rfl, fun _ => rfl⟩

/-- Witness for C4 (amended) at the concrete empty stream. -/
theorem C4_witness :
    async_watch (Except.ok ()) (Except.ok ()) [] =
      (LogLine.watcherStart :: consumeLoop [], Except.ok ()) :=
  (C4_closure_exits_quietly []).1

/-- The trace of main splits into the banner, the sync banner line,
and the rest of the sync pass followed by the watch phase. -/
theorem mainLogs_decompose (cli : Cli) (destExists : Bool)
    (createResult : Except FsError Unit) (samples : List TransitProcess)
    (copyResult : Except FsError Unit) (watcherResult watchResult : Except NotifyError Unit)
    (stream : List (Except NotifyError Event)) :
    mainLogs cli destExists createResult samples copyResult watcherResult watchResult
        stream =
      [LogLine.startingUp, LogLine.localDir cli.local_emulation_directory,
        LogLine.networkDir cli.network_emulation_directory] ++
      LogLine.syncStart ::
        (((sync_directories cli.network_emulation_directory destExists createResult
              samples copyResult).logs ++
          dirSyncErrorLog (sync_directories cli.network_emulation_directory destExists
              createResult samples copyResult).result) ++
          ((async_watch watcherResult watchResult stream).1 ++
            mainWatchResultLog (async_watch watcherResult watchResult stream).2)) := by
  simp [mainLogs, sync_emudeck_to_network_directories]

/-- C8 is false as stated: the CLI rejects a single positional
argument, and the single entry configuration that does exist performs
the sync pass (its trace contains the sync banner) before watching. -/
theorem C8_counterexample :
    cliParse ["network_location"] = none ∧
    LogLine.syncStart ∈
      mainLogs
        { local_emulation_directory := "local", network_emulation_directory := "net" }
        true (Except.ok ()) [] (Except.ok ()) (Except.ok ()) (Except.ok ()) [] := by
  refine ⟨rfl, ?_⟩
  rw [mainLogs_decompose]
  simp

/-- C8 (amended): the only CLI entry configuration accepts exactly two
positional arguments, and every run of it performs the sync pass
before the Change Watcher starts; a watch-only variant does not
exist. -/
theorem C8_single_variant_syncs_first (args : List String) (cli : Cli)
    (h : cliParse args = some cli) (destExists : Bool)
    (createResult copyResult : Except FsError Unit) (samples : List TransitProcess)
    (stream : List (Except NotifyError Event)) :
    args.length = 2 ∧
    ∃ pre suf,
      mainLogs cli destExists createResult samples copyResult (Except.ok ())
          (Except.ok ()) stream = pre ++ LogLine.syncStart :: suf ∧
      LogLine.watcherStart ∉ pre ∧ LogLine.watcherStart ∈ suf := by
  constructor
  · match args, h with
    | [a, b], _ => rfl
  · refine ⟨[LogLine.startingUp, LogLine.localDir cli.local_emulation_directory,
      LogLine.networkDir cli.network_emulation_directory],
      ((sync_directories cli.network_emulation_directory destExists createResult
            samples copyResult).logs ++
        dirSyncErrorLog (sync_directories cli.network_emulation_directory destExists
            createResult samples copyResult).result) ++
        ((async_watch (Except.ok ()) (Except.ok ()) stream).1 ++
          mainWatchResultLog (async_watch (Except.ok ()) (Except.ok ()) stream).2),
      mainLogs_decompose cli destExists createResult samples copyResult (Except.ok ())
        (Except.ok ()) stream, ?_, ?_⟩
    · simp
    · refine List.mem_append.mpr (Or.inr (List.mem_append.mpr (Or.inl ?_)))
      show LogLine.watcherStart ∈ LogLine.watcherStart :: consumeLoop stream
      exact List.mem_cons_self _ _

/-- Witness for C8 (amended) at the concrete invocation with arguments
a and b. -/
theorem C8_witness :
    (["a", "b"] : List String).length = 2 ∧
    ∃ pre suf,
      mainLogs { local_emulation_directory := "a", network_emulation_directory := "b" }
          true (Except.ok ()) [] (Except.ok ()) (Except.ok ()) (Except.ok ()) [] =
        pre ++ LogLine.syncStart :: suf ∧
      LogLine.watcherStart ∉ pre ∧ LogLine.watcherStart ∈ suf :=
  C8_single_variant_syncs_first ["a", "b"] _ rfl true (Except.ok ()) (Except.ok ()) [] []

/-- C10: sync_directories returns an Err exactly when the destination
was missing and creating it failed; the result does not depend on the
copy outcome at all (so a caller cannot tell a failed copy from a
successful one by the return value), and a failed copy is only logged
at error level. -/
theorem C10_err_iff_create_fails (destination : String) (destExists : Bool)
    (createResult : Except FsError Unit) (samples : List TransitProcess)
    (copyResult : Except FsError Unit) :
    (∀ e : FsError,
      (sync_directories destination destExists createResult samples copyResult).result =
          Except.error e ↔
        destExists = false ∧ createResult = Except.error e) ∧
    (∀ copyResult2 : Except FsError Unit,
      (sync_directories destination destExists createResult samples copyResult).result =
        (sync_directories destination destExists createResult samples
          copyResult2).result) ∧
    (∀ e : FsError, destExists = true ∨ createResult = Except.ok () →
      LogLine.syncDirError e ∈
        (sync_directories destination destExists createResult samples
          (Except.error e)).logs) := by
  refine ⟨?_, ?_, ?_⟩ <;> cases destExists <;> cases createResult <;>
    simp [sync_directories, copyErrorLog]

/-- Witness for C10 at a concrete input: with the destination present,
a failed copy and a successful copy give the same return value. -/
theorem C10_witness :
    (sync_directories "d" true (Except.ok ()) []
        (Except.error FsError.copyFailed)).result =
      (sync_directories "d" true (Except.ok ()) [] (Except.ok ())).result :=
  (C10_err_iff_create_fails "d" true (Except.ok ()) []
    (Except.error FsError.copyFailed)).2.1 (Except.ok ())

/-- C9: when the destination does not exist, sync_directories runs
create_dir_all (which creates all missing ancestor directories) before
any copying; a creation failure is propagated as the Err result of the
sync call with no copy attempted, the caller merely logs it, and the
process still reaches the watch phase. -/
theorem C9_create_before_copy (cli : Cli) (createResult : Except FsError Unit)
    (samples : List TransitProcess) (copyResult : Except FsError Unit)
    (stream : List (Except NotifyError Event)) :
    ((sync_directories cli.network_emulation_directory false createResult samples
        copyResult).steps.head? = some SyncStep.createDestDirAll) ∧
    (createResult = Except.ok () →
      (sync_directories cli.network_emulation_directory false createResult samples
          copyResult).steps =
        [SyncStep.createDestDirAll, SyncStep.copyWithProgress]) ∧
    (∀ e : FsError, createResult = Except.error e →
      (sync_directories cli.network_emulation_directory false createResult samples
          copyResult).result = Except.error e ∧
      SyncStep.copyWithProgress ∉
        (sync_directories cli.network_emulation_directory false createResult samples
          copyResult).steps ∧
      LogLine.dirSyncError e ∈
        sync_emudeck_to_network_directories cli false createResult samples copyResult ∧
      LogLine.watcherStart ∈
        mainLogs cli false createResult samples copyResult (Except.ok ()) (Except.ok ())
          stream) := by
  cases createResult with
  | ok u =>
    exact ⟨rfl, fun _ => rfl, fun e he => Except.noConfusion he⟩
  | error e0 =>
    refine ⟨rfl, fun h => Except.noConfusion h, ?_⟩
    intro e he
    injection he with he2
    subst he2
    refine ⟨rfl, ?_, ?_, ?_⟩
    · show SyncStep.copyWithProgress ∉ [SyncStep.createDestDirAll]
      decide
    · simp [sync_emudeck_to_network_directories, sync_directories, dirSyncErrorLog]
    · rw [mainLogs_decompose]
      simp [async_watch]

/-- Witness for C9 at a concrete input: a failed creation of the
missing destination propagates as the Err result of the sync call. -/
theorem C9_witness :
    (sync_directories "n" false (Except.error FsError.createFailed) []
        (Except.ok ())).result = Except.error FsError.createFailed :=
  ((C9_create_before_copy
      { local_emulation_directory := "l", network_emulation_directory := "n" }
      (Except.error FsError.createFailed) [] (Except.ok ()) []).2.2
    FsError.createFailed rfl).1

/-- C6: an I/O error during the copy traversal is logged with its
cause, sync_directories returns normally (Ok, no panic), and the
process continues to the watch phase regardless of how the sync pass
went. -/
theorem C6_copy_error_logged_process_continues (cli : Cli) (destExists : Bool)
    (createResult : Except FsError Unit) (samples : List TransitProcess) (e : FsError)
    (stream : List (Except NotifyError Event))
    (hreach : destExists = true ∨ createResult = Except.ok ()) :
    LogLine.syncDirError e ∈
      (sync_directories cli.network_emulation_directory destExists createResult samples
        (Except.error e)).logs ∧
    (sync_directories cli.network_emulation_directory destExists createResult samples
      (Except.error e)).result = Except.ok () ∧
    (∀ (destExists2 : Bool) (createResult2 copyResult2 : Except FsError Unit),
      LogLine.watcherStart ∈
        mainLogs cli destExists2 createResult2 samples copyResult2 (Except.ok ())
          (Except.ok ()) stream) := by
  have hw : ∀ (destExists2 : Bool) (createResult2 copyResult2 : Except FsError Unit),
      LogLine.watcherStart ∈
        mainLogs cli destExists2 createResult2 samples copyResult2 (Except.ok ())
          (Except.ok ()) stream := by
    intro d2 c2 p2
    rw [mainLogs_decompose]
    simp [async_watch]
  cases destExists with
  | true =>
    exact ⟨by simp [sync_directories, copyErrorLog], rfl, hw⟩
  | false =>
    rcases hreach with h | h
    · cases h
    · cases h
      exact ⟨by simp [sync_directories, copyErrorLog], rfl, hw⟩

/-- Witness for C6 at a concrete input. -/
theorem C6_witness :
    LogLine.syncDirError FsError.copyFailed ∈
      (sync_directories "n" true (Except.ok ()) []
        (Except.error FsError.copyFailed)).logs :=
  (C6_copy_error_logged_process_continues
    { local_emulation_directory := "l", network_emulation_directory := "n" } true
    (Except.ok ()) [] FsError.copyFailed [] (Or.inl rfl)).1

theorem consumeLoop_append (pre post : List (Except NotifyError Event)) :
    consumeLoop (pre ++ post) = consumeLoop pre ++ consumeLoop post := by
  induction pre with
  | nil => rfl
  | cons x rest ih => cases x <;> simp [consumeLoop, ih]

theorem watcherStart_mem_mainLogs (cli : Cli) (destExists : Bool)
    (createResult : Except FsError Unit) (samples : List TransitProcess)
    (copyResult : Except FsError Unit) (stream : List (Except NotifyError Event)) :
    LogLine.watcherStart ∈
      mainLogs cli destExists createResult samples copyResult (Except.ok ())
        (Except.ok ()) stream := by
  rw [mainLogs_decompose]
  simp [async_watch]

theorem syncDirError_mem_logs (destination : String) (destExists : Bool)
    (createResult : Except FsError Unit) (samples : List TransitProcess) (e : FsError)
    (hreach : destExists = true ∨ createResult = Except.ok ()) :
    LogLine.syncDirError e ∈
      (sync_directories destination destExists createResult samples
        (Except.error e)).logs := by
  cases destExists with
  | true => simp [sync_directories, copyErrorLog]
  | false =>
    rcases hreach with h | h
    · cases h
    · cases h
      simp [sync_directories, copyErrorLog]

/-- C2 is false as stated: with a source of two entries going into an
empty destination, where only the first entry's copy fails, the copy
pass aborts (the callback always answers ContinueOrAbort) and the
second, otherwise-succeeding entry is never copied. -/
theorem C2_counterexample :
    copyTreeWithFailures (fun p => p == ["roms", "a.bin"])
        [(["roms", "a.bin"], [1]), (["saves", "b.sav"], [2])] [] = ([], false) ∧
    lookupEntry
      (copyTreeWithFailures (fun p => p == ["roms", "a.bin"])
        [(["roms", "a.bin"], [1]), (["saves", "b.sav"], [2])] []).1
      ["saves", "b.sav"] = none := by
  decide

/-- C2 (amended): a single error item received by the watch loop is
logged and the loop continues; a single failing copy, however, aborts
the remainder of the sync pass — the already-copied prefix survives
while the failing entry and everything after it stays uncopied — and
the resulting error is logged once while the process still proceeds to
the watch phase. -/
theorem C2_single_failure_behavior (fails : EPath → Bool) (e : EPath × FileContent)
    (rest dest : FileTree) (hnew : lookupEntry dest e.1 = none)
    (hfail : fails e.1 = true) (pre post : List (Except NotifyError Event))
    (err : NotifyError) (cli : Cli) (destExists : Bool)
    (createResult : Except FsError Unit) (samples : List TransitProcess)
    (eio : FsError) (stream : List (Except NotifyError Event))
    (hreach : destExists = true ∨ createResult = Except.ok ()) :
    copyTreeWithFailures fails (e :: rest) dest = (dest, false) ∧
    LogLine.syncDirError eio ∈
      (sync_directories cli.network_emulation_directory destExists createResult samples
        (Except.error eio)).logs ∧
    LogLine.watcherStart ∈
      mainLogs cli destExists createResult samples (Except.error eio) (Except.ok ())
        (Except.ok ()) stream ∧
    consumeLoop (pre ++ Except.error err :: post) =
      consumeLoop pre ++ LogLine.watchError err :: consumeLoop post := by
  refine ⟨?_, ?_, ?_, ?_⟩
  · simp [copyTreeWithFailures, hnew, hfail]
  · exact syncDirError_mem_logs cli.network_emulation_directory destExists createResult
      samples eio hreach
  · exact watcherStart_mem_mainLogs cli destExists createResult samples
      (Except.error eio) stream
  · rw [consumeLoop_append]
    rfl

/-- Witness for C2 (amended) at a concrete input: one failing entry
into an empty destination, one error item in the watch stream. -/
theorem C2_witness :
    copyTreeWithFailures (fun p => p == ["x"]) [(["x"], [1])] [] = ([], false) ∧
    LogLine.syncDirError FsError.copyFailed ∈
      (sync_directories "n" true (Except.ok ()) []
        (Except.error FsError.copyFailed)).logs ∧
    LogLine.watcherStart ∈
      mainLogs { local_emulation_directory := "l", network_emulation_directory := "n" }
        true (Except.ok ()) [] (Except.error FsError.copyFailed) (Except.ok ())
        (Except.ok ()) [] ∧
    consumeLoop ([] ++ Except.error { code := 0 } :: []) =
      consumeLoop [] ++ LogLine.watchError { code := 0 } :: consumeLoop [] :=
  C2_single_failure_behavior (fun p => p == ["x"]) (["x"], [1]) [] [] (by decide)
    (by decide) [] [] { code := 0 }
    { local_emulation_directory := "l", network_emulation_directory := "n" } true
    (Except.ok ()) [] FsError.copyFailed [] (Or.inl rfl)

/-- C5 is false as stated: at the progress sample of 1 copied byte out
of 1000 the truncated integer percentage is 0, a multiple of 10, so a
progress line is emitted — but the percentage value it logs is 0.1,
which is not a multiple of 10. -/
theorem C5_counterexample :
    handle { copied_bytes := 1, total_bytes := 1000 } =
      some (LogLine.syncProgress (1 / 10)) ∧
    ¬ ∃ k : ℤ, ((1 : ℚ) / 10) = 10 * k := by
  constructor
  · have hp : percentage { copied_bytes := 1, total_bytes := 1000 } = 1 / 10 := by
      unfold percentage
      norm_num
    have hfl : ⌊(1 : ℚ) / 10⌋ = 0 := by
      rw [Int.floor_eq_zero_iff]
      constructor <;> norm_num
    rw [handle, hp, hfl]
    norm_num
  · rintro ⟨k, hk⟩
    have h1 : (1 : ℚ) = 100 * (k : ℚ) := by
      field_simp at hk
      linarith
    have h2 : (1 : ℤ) = 100 * k := by exact_mod_cast h1
    omega

theorem progressLogs_eq_map :
    ∀ samples : List TransitProcess,
      progressLogs samples = (loggedPercentages samples).map LogLine.syncProgress
  | [] => rfl
  | s :: rest => by
    have ih := progressLogs_eq_map rest
    unfold progressLogs loggedPercentages at ih ⊢
    rw [List.filterMap_cons, List.filter_cons]
    by_cases h : (⌊percentage s⌋).toNat % 10 = 0
    · simp [handle, h, ih]
    · simp [handle, h, ih]

/-- C5 (amended): a progress line is emitted exactly when the
truncated integer percentage is a multiple of 10; over one pass with a
fixed positive byte total, with copied bytes never exceeding the total
and non-decreasing from sample to sample, the sequence of logged
percentage values is non-decreasing and each logged value lies in
[0, 100] and has a truncated integer part that is a multiple of 10 —
the exact logged value itself need not be a multiple of 10. -/
theorem C5_progress_throttling (samples : List TransitProcess) (t : Nat) (ht : 0 < t)
    (htot : ∀ s ∈ samples, s.total_bytes = t)
    (hbound : ∀ s ∈ samples, s.copied_bytes ≤ s.total_bytes)
    (hmono : samples.Pairwise (fun a b => a.copied_bytes ≤ b.copied_bytes)) :
    (∀ s : TransitProcess,
      (handle s).isSome = true ↔ (⌊percentage s⌋).toNat % 10 = 0) ∧
    progressLogs samples = (loggedPercentages samples).map LogLine.syncProgress ∧
    (loggedPercentages samples).Pairwise (· ≤ ·) ∧
    (∀ v ∈ loggedPercentages samples,
      0 ≤ v ∧ v ≤ 100 ∧ (⌊v⌋).toNat % 10 = 0) := by
  have hq : (0 : ℚ) < (t : ℚ) := by exact_mod_cast ht
  refine ⟨?_, progressLogs_eq_map samples, ?_, ?_⟩
  · intro s
    by_cases h : (⌊percentage s⌋).toNat % 10 = 0 <;> simp [handle, h]
  · have hmono2 : samples.Pairwise (fun a b => percentage a ≤ percentage b) := by
      refine hmono.imp_of_mem ?_
      intro a b ha hb hab
      have hta := htot a ha
      have htb := htot b hb
      unfold percentage
      rw [hta, htb]
      have h1 : (a.copied_bytes : ℚ) ≤ (b.copied_bytes : ℚ) := by exact_mod_cast hab
      gcongr
    unfold loggedPercentages
    exact List.pairwise_map.mpr (hmono2.filter _)
  · intro v hv
    unfold loggedPercentages at hv
    rcases List.mem_map.mp hv with ⟨s, hs, hsv⟩
    have hsc := List.mem_filter.mp hs
    have hsmem : s ∈ samples := hsc.1
    have hcond : (⌊percentage s⌋).toNat % 10 = 0 := of_decide_eq_true hsc.2
    have hts := htot s hsmem
    have hcb := hbound s hsmem
    subst hsv
    refine ⟨?_, ?_, hcond⟩
    · unfold percentage
      positivity
    · unfold percentage
      rw [hts]
      have h1 : (s.copied_bytes : ℚ) ≤ (t : ℚ) := by
        rw [hts] at hcb
        exact_mod_cast hcb
      have h2 : (s.copied_bytes : ℚ) / (t : ℚ) ≤ 1 := by
        rw [div_le_one hq]
        exact h1
      have h3 := mul_le_mul_of_nonneg_right h2 (by norm_num : (0 : ℚ) ≤ 100)
      simpa using h3

/-- Witness for C5 (amended) at a concrete sample stream: three
samples of a 10-byte total give the non-decreasing logged values 0, 50
and 100. -/
theorem C5_witness :
    (loggedPercentages
      [{ copied_bytes := 0, total_bytes := 10 }, { copied_bytes := 5, total_bytes := 10 },
        { copied_bytes := 10, total_bytes := 10 }]).Pairwise (· ≤ ·) :=
  (C5_progress_throttling
    [{ copied_bytes := 0, total_bytes := 10 }, { copied_bytes := 5, total_bytes := 10 },
      { copied_bytes := 10, total_bytes := 10 }]
    10 (by decide) (by decide) (by decide) (by decide)).2.2.1

end EmudeckSync
